import Mathlib

/-
Verification development for the polars join-orchestration layer
(crates/polars-ops/src/frame/join/mod.rs) and the arrow bitmap
(crates/polars-arrow/src/bitmap/immutable.rs).

Machine integers are modelled as `Nat` with explicit wrapping where it
matters; fallible code returns `Option`/`Except`; a Rust `panic!` is a
distinct result constructor.
-/

namespace Polars

/-- Modelled from the spec: the raw bit read of
`super::utils::get_bit`/`get_bit_unchecked`, whose body is outside the
source excerpt; the bit order is fixed by the documented example on
`Bitmap::try_new` (`vec![0b00001101], 5` reads as
`[true, false, true, true, false]`), i.e. bit `i` is bit `i % 8`
(least-significant first) of byte `i / 8`.  Out-of-range reads take the
byte to be `0`; callers stay in range. -/
def getBitRaw (bytes : List Nat) (i : Nat) : Bool :=
  ((bytes.getD (i / 8) 0) >>> (i % 8)) % 2 == 1

/-- Modelled from the spec: the number of unset bits among positions
`[off, off + len)`, i.e. `utils::count_zeros`, whose body is outside the
source excerpt; per its uses in `immutable.rs` it returns the number of
unset bits starting from `off` bits and for `len` bits. -/
def countZeros (bytes : List Nat) (off len : Nat) : Nat :=
  (List.range len).countP (fun k => !getBitRaw bytes (off + k))

/-- Embeds `UNKNOWN_BIT_COUNT` sentinel: the `u64::MAX` value meaning "no known
unset-bit count at all". -/
def UNKNOWN_BIT_COUNT : Nat := 2 ^ 64 - 1

/-- The `Bitmap` struct of `immutable.rs`: shared byte buffer, bit offset,
bit length, and the unset-bit-count cache (an atomic `u64`, modelled as a
plain `Nat < 2^64` since the claims are single-threaded). -/
structure Bitmap where
  bytes : List Nat
  offset : Nat
  length : Nat
  unset_bit_count_cache : Nat
  deriving DecidableEq

/-- Embeds `Bitmap::len`. -/
def Bitmap.len (b : Bitmap) : Nat := b.length

/-- Embeds `Bitmap::try_new`: errors iff `offset + length > bytes.len() * 8`
(with `offset = 0`), otherwise starts with the unknown-count sentinel. -/
def Bitmap.try_new (bytes : List Nat) (length : Nat) : Except String Bitmap :=
  if 0 + length > bytes.length * 8 then
    .error "The offset + length of the bitmap must be <= to the number of bytes times 8"
  else
    .ok { bytes := bytes, offset := 0, length := length,
          unset_bit_count_cache := UNKNOWN_BIT_COUNT }

/-- Embeds `Bitmap::get_bit`: reads the bit at buffer position `offset + i`. -/
def Bitmap.get_bit (b : Bitmap) (i : Nat) : Bool :=
  getBitRaw b.bytes (b.offset + i)

/-- Embeds `Bitmap::get_bit_unchecked`: same raw read as `get_bit`; the caller
guarantees `i < len`. -/
def Bitmap.get_bit_unchecked (b : Bitmap) (i : Nat) : Bool :=
  getBitRaw b.bytes (b.offset + i)

/-- Embeds `Bitmap::get`: `Some` of the bit when `i < len`, `None` otherwise. -/
def Bitmap.get (b : Bitmap) (i : Nat) : Option Bool :=
  if i < b.len then some (b.get_bit_unchecked i) else none

/-- Embeds `Bitmap::unset_bits`: uses the cache when its top bit is clear,
otherwise counts (the code also stores the freshly counted value, which
re-establishes the cache invariant; the returned value is modelled). -/
def Bitmap.unset_bits (b : Bitmap) : Nat :=
  if b.unset_bit_count_cache >>> 63 ≠ 0 then
    countZeros b.bytes b.offset b.length
  else
    b.unset_bit_count_cache

/-- Embeds `Bitmap::lazy_unset_bits`: `Some cache` when the top bit is clear. -/
def Bitmap.lazy_unset_bits (b : Bitmap) : Option Nat :=
  if b.unset_bit_count_cache >>> 63 ≠ 0 then none
  else some b.unset_bit_count_cache

/-- Embeds `Bitmap::slice_unchecked`, translated branch for branch:
no-op fast path; all-set/all-unset fast path; eager inclusion-exclusion
recount when most of the bitmap is kept; otherwise reset to the unknown
sentinel; a cache with the top bit set is left untouched. -/
def Bitmap.slice_unchecked (b : Bitmap) (offset length : Nat) : Bitmap :=
  if offset = 0 ∧ length = b.length then b
  else if b.unset_bit_count_cache = 0 ∨ b.unset_bit_count_cache = b.length then
    { b with
      unset_bit_count_cache := if 0 < b.unset_bit_count_cache then length else 0,
      offset := b.offset + offset, length := length }
  else if b.unset_bit_count_cache >>> 63 = 0 then
    let small_portion := max (b.length / 5) 32
    if b.length ≤ length + small_portion then
      let slice_end := b.offset + offset + length
      let head_count := countZeros b.bytes b.offset offset
      let tail_count := countZeros b.bytes slice_end (b.length - length - offset)
      { b with
        unset_bit_count_cache := b.unset_bit_count_cache - head_count - tail_count,
        offset := b.offset + offset, length := length }
    else
      { b with
        unset_bit_count_cache := UNKNOWN_BIT_COUNT,
        offset := b.offset + offset, length := length }
  else
    { b with offset := b.offset + offset, length := length }

/-- Embeds `Bitmap::slice`: asserts `offset + length <= self.length` (a failed
assertion, i.e. a panic, is modelled as `none`) and then slices. -/
def Bitmap.slice (b : Bitmap) (offset length : Nat) : Option Bitmap :=
  if offset + length ≤ b.length then some (b.slice_unchecked offset length)
  else none

/-- The unset-bit-count cache invariant: a cache value with a clear top
bit is the exact number of unset bits in the window, and a cache value
with the top bit set is exactly the `UNKNOWN_BIT_COUNT` sentinel (the
code reserves other top-bit-set patterns but never produces them). -/
def Bitmap.Inv (b : Bitmap) : Prop :=
  (b.unset_bit_count_cache >>> 63 = 0 →
    b.unset_bit_count_cache = countZeros b.bytes b.offset b.length) ∧
  (b.unset_bit_count_cache >>> 63 ≠ 0 →
    b.unset_bit_count_cache = UNKNOWN_BIT_COUNT)

/-- Well-formedness of a bitmap: the window lies inside the buffer, and
the length fits in 63 bits (its `u64` cast keeps the top bit clear; on a
64-bit machine a byte buffer of `2^60` bytes is unrealizable). -/
def Bitmap.Wf (b : Bitmap) : Prop :=
  b.offset + b.length ≤ 8 * b.bytes.length ∧ b.length < 2 ^ 63

instance (b : Bitmap) : Decidable b.Inv := by
  unfold Bitmap.Inv
  infer_instance

instance (b : Bitmap) : Decidable b.Wf := by
  unfold Bitmap.Wf
  infer_instance

theorem countZeros_le (bytes : List Nat) (off len : Nat) :
    countZeros bytes off len ≤ len := by
  calc (List.range len).countP (fun k => !getBitRaw bytes (off + k))
      ≤ (List.range len).length := List.countP_le_length _
    _ = len := List.length_range len

theorem countZeros_add (bytes : List Nat) (off m n : Nat) :
    countZeros bytes off (m + n) =
      countZeros bytes off m + countZeros bytes (off + m) n := by
  unfold countZeros
  rw [List.range_add, List.countP_append, List.countP_map]
  congr 1
  apply List.countP_congr
  intro k _
  simp [Function.comp, Nat.add_assoc]

theorem cache_known_iff (c : Nat) : c >>> 63 = 0 ↔ c < 2 ^ 63 := by
  rw [Nat.shiftRight_eq_div_pow]
  exact Nat.div_eq_zero_iff (by norm_num)

theorem unknown_shift : UNKNOWN_BIT_COUNT >>> 63 ≠ 0 := by decide

theorem countZeros_split (bytes : List Nat) (off o l r : Nat) :
    countZeros bytes off (o + (l + r)) =
      countZeros bytes off o + countZeros bytes (off + o) l +
        countZeros bytes (off + o + l) r := by
  rw [countZeros_add, countZeros_add]
  omega

theorem slice_unchecked_inv (b : Bitmap) (hInv : b.Inv) (hWf : b.Wf)
    (o l : Nat) (hol : o + l ≤ b.length) :
    (b.slice_unchecked o l).Inv ∧ (b.slice_unchecked o l).Wf := by
  obtain ⟨hknown, hunknown⟩ := hInv
  obtain ⟨hbuf, hlen⟩ := hWf
  have hsplit : countZeros b.bytes b.offset b.length =
      countZeros b.bytes b.offset o + countZeros b.bytes (b.offset + o) l +
        countZeros b.bytes (b.offset + o + l) (b.length - l - o) := by
    have h1 : b.length = o + (l + (b.length - l - o)) := by omega
    calc countZeros b.bytes b.offset b.length
        = countZeros b.bytes b.offset (o + (l + (b.length - l - o))) := by rw [← h1]
      _ = _ := countZeros_split ..
  have hA := countZeros_le b.bytes b.offset o
  have hB := countZeros_le b.bytes (b.offset + o) l
  have hC := countZeros_le b.bytes (b.offset + o + l) (b.length - l - o)
  simp only [Bitmap.slice_unchecked]
  by_cases hno : o = 0 ∧ l = b.length
  · rw [if_pos hno]
    exact ⟨⟨hknown, hunknown⟩, hbuf, hlen⟩
  rw [if_neg hno]
  have hblen : 0 < b.length := by
    by_cases hb0 : b.length = 0
    · exact absurd ⟨by omega, by omega⟩ hno
    · omega
  by_cases hfast : b.unset_bit_count_cache = 0 ∨ b.unset_bit_count_cache = b.length
  · rw [if_pos hfast]
    have hck : b.unset_bit_count_cache >>> 63 = 0 := by
      rcases hfast with h0 | hL
      · rw [h0]; rfl
      · rw [hL]; exact (cache_known_iff _).mpr hlen
    have hexact := hknown hck
    have hmid : (if 0 < b.unset_bit_count_cache then l else 0) =
        countZeros b.bytes (b.offset + o) l := by
      rcases hfast with h0 | hL
      · rw [h0, if_neg (lt_irrefl 0)]
        omega
      · rw [hL, if_pos hblen]
        omega
    have hmlt : (if 0 < b.unset_bit_count_cache then l else 0) < 2 ^ 63 := by
      have := countZeros_le b.bytes (b.offset + o) l
      omega
    simp only [Bitmap.Inv, Bitmap.Wf]
    refine ⟨⟨fun _ => hmid, fun hne => absurd ((cache_known_iff _).mpr hmlt) hne⟩, ?_, ?_⟩
    · omega
    · omega
  rw [if_neg hfast]
  by_cases hck : b.unset_bit_count_cache >>> 63 = 0
  · rw [if_pos hck]
    have hexact := hknown hck
    by_cases hkeep : b.length ≤ l + max (b.length / 5) 32
    · rw [if_pos hkeep]
      simp only [Bitmap.Inv, Bitmap.Wf]
      refine ⟨⟨fun _ => by omega, fun hne => ?_⟩, by omega, by omega⟩
      exact absurd ((cache_known_iff _).mpr (by omega)) hne
    · rw [if_neg hkeep]
      simp only [Bitmap.Inv, Bitmap.Wf]
      refine ⟨⟨fun hk => absurd hk unknown_shift, fun _ => trivial⟩, by omega, by omega⟩
  · rw [if_neg hck]
    simp only [Bitmap.Inv, Bitmap.Wf]
    refine ⟨⟨fun hk => absurd hk hck, fun _ => hunknown hck⟩, by omega, by omega⟩

/-- C9: for every `Bitmap` `b` and index `i`, `Bitmap.get` returns
`some bit` when `i < b.len()` and `none` when `i ≥ b.len()`, and the
returned bit is exactly the one `get_bit` reads at buffer position
`offset + i`; the embedding of `get` is a total function, so no panic is
possible. -/
theorem c9_bitmap_get_total (b : Bitmap) (hWf : b.Wf) (i : Nat) :
    (i < b.len → b.get i = some (b.get_bit i)
        ∧ b.get_bit i = getBitRaw b.bytes (b.offset + i))
    ∧ (b.len ≤ i → b.get i = none) := by
  constructor
  · intro h
    refine ⟨?_, rfl⟩
    unfold Bitmap.get
    rw [if_pos h]
    rfl
  · intro h
    unfold Bitmap.get
    rw [if_neg (Nat.not_lt.mpr h)]

/-- Witness for C9 at the bitmap of the documented example
(`bytes = [0b00001101]`, `length = 5`), index `2`. -/
theorem c9_bitmap_get_total_witness :
    (Bitmap.mk [13] 0 5 UNKNOWN_BIT_COUNT).Wf ∧
    ((2 < (Bitmap.mk [13] 0 5 UNKNOWN_BIT_COUNT).len →
        (Bitmap.mk [13] 0 5 UNKNOWN_BIT_COUNT).get 2 =
            some ((Bitmap.mk [13] 0 5 UNKNOWN_BIT_COUNT).get_bit 2)
        ∧ (Bitmap.mk [13] 0 5 UNKNOWN_BIT_COUNT).get_bit 2 =
            getBitRaw [13] (0 + 2))
      ∧ ((Bitmap.mk [13] 0 5 UNKNOWN_BIT_COUNT).len ≤ 2 →
        (Bitmap.mk [13] 0 5 UNKNOWN_BIT_COUNT).get 2 = none)) :=
  ⟨by decide, c9_bitmap_get_total (Bitmap.mk [13] 0 5 UNKNOWN_BIT_COUNT) (by decide) 2⟩

/-- C10: the unset-bit-count cache invariant.  For a well-formed bitmap
satisfying the invariant: `lazy_unset_bits = some n` implies `n` is the
exact number of unset bits in the window `[offset, offset+length)` and
`n ≤ len()`; `unset_bits` always returns that exact count; and both
`slice_unchecked` (under its safety precondition) and the checked
`slice` preserve the invariant, leaving the cache either the unknown
sentinel or the exact count of the new window. -/
theorem c10_unset_bit_count_cache_invariant (b : Bitmap) (hInv : b.Inv) (hWf : b.Wf) :
    (∀ n, b.lazy_unset_bits = some n →
        n = countZeros b.bytes b.offset b.length ∧ n ≤ b.len)
    ∧ b.unset_bits = countZeros b.bytes b.offset b.length
    ∧ (∀ o l, o + l ≤ b.length →
        (b.slice_unchecked o l).Inv ∧ (b.slice_unchecked o l).Wf
        ∧ ((b.slice_unchecked o l).unset_bit_count_cache = UNKNOWN_BIT_COUNT
           ∨ (b.slice_unchecked o l).unset_bit_count_cache =
               countZeros (b.slice_unchecked o l).bytes
                 (b.slice_unchecked o l).offset (b.slice_unchecked o l).length))
    ∧ (∀ o l b', b.slice o l = some b' → b'.Inv ∧ b'.Wf) := by
  obtain ⟨hknown, hunknown⟩ := hInv
  refine ⟨?_, ?_, ?_, ?_⟩
  · intro n hn
    unfold Bitmap.lazy_unset_bits at hn
    by_cases hck : b.unset_bit_count_cache >>> 63 = 0
    · rw [if_neg (not_not_intro hck)] at hn
      have hn' : n = b.unset_bit_count_cache := (Option.some.inj hn).symm
      subst hn'
      refine ⟨hknown hck, ?_⟩
      have h1 := countZeros_le b.bytes b.offset b.length
      have h2 := hknown hck
      unfold Bitmap.len
      omega
    · rw [if_pos hck] at hn
      exact absurd hn (by simp)
  · unfold Bitmap.unset_bits
    by_cases hck : b.unset_bit_count_cache >>> 63 = 0
    · rw [if_neg (not_not_intro hck)]
      exact hknown hck
    · rw [if_pos hck]
  · intro o l hol
    have h := slice_unchecked_inv b ⟨hknown, hunknown⟩ hWf o l hol
    refine ⟨h.1, h.2, ?_⟩
    by_cases hck : (b.slice_unchecked o l).unset_bit_count_cache >>> 63 = 0
    · exact Or.inr (h.1.1 hck)
    · exact Or.inl (h.1.2 hck)
  · intro o l b' hb
    unfold Bitmap.slice at hb
    by_cases hle : o + l ≤ b.length
    · rw [if_pos hle] at hb
      have hb' : b.slice_unchecked o l = b' := Option.some.inj hb
      exact hb' ▸ slice_unchecked_inv b ⟨hknown, hunknown⟩ hWf o l hle
    · rw [if_neg hle] at hb
      exact absurd hb (by simp)

/-- Witness for C10 at the bitmap `bytes = [0b00001101]`, window of
length `5`, cached unset count `2` (the exact count). -/
theorem c10_unset_bit_count_cache_invariant_witness :
    (Bitmap.mk [13] 0 5 2).Inv ∧ (Bitmap.mk [13] 0 5 2).Wf ∧
    ((∀ n, (Bitmap.mk [13] 0 5 2).lazy_unset_bits = some n →
        n = countZeros [13] 0 5 ∧ n ≤ (Bitmap.mk [13] 0 5 2).len)
     ∧ (Bitmap.mk [13] 0 5 2).unset_bits = countZeros [13] 0 5
     ∧ (∀ o l, o + l ≤ 5 →
        ((Bitmap.mk [13] 0 5 2).slice_unchecked o l).Inv
        ∧ ((Bitmap.mk [13] 0 5 2).slice_unchecked o l).Wf
        ∧ (((Bitmap.mk [13] 0 5 2).slice_unchecked o l).unset_bit_count_cache =
              UNKNOWN_BIT_COUNT
           ∨ ((Bitmap.mk [13] 0 5 2).slice_unchecked o l).unset_bit_count_cache =
              countZeros ((Bitmap.mk [13] 0 5 2).slice_unchecked o l).bytes
                ((Bitmap.mk [13] 0 5 2).slice_unchecked o l).offset
                ((Bitmap.mk [13] 0 5 2).slice_unchecked o l).length))
     ∧ (∀ o l b', (Bitmap.mk [13] 0 5 2).slice o l = some b' → b'.Inv ∧ b'.Wf)) :=
  ⟨by decide, by decide,
    c10_unset_bit_count_cache_invariant (Bitmap.mk [13] 0 5 2) (by decide) (by decide)⟩

/-
Join-orchestration layer, crates/polars-ops/src/frame/join/mod.rs.

The data model follows the spec section 3: a Table is an ordered list of
named typed columns; a column value is null, an integer, or a string;
a categorical column stores integer codes plus a code-to-string
dictionary carried on its dtype.  Chunked memory layout is not part of
the logical model, so the rechunk branch of `_join_impl` (which clones
and re-chunks before recursing) is the identity here.
-/

/-- A single column value. -/
inductive AnyValue
  | null
  | int (i : Int)
  | str (s : String)
  deriving DecidableEq

/-- Logical column type; `cat` carries the code-to-string dictionary of
a dictionary-encoded string column. -/
inductive DType
  | int
  | str
  | cat (dict : List String)
  deriving DecidableEq

/-- Dtype comparison as used by the join key check `l.dtype() != r.dtype()`:
two categorical dtypes compare equal regardless of their dictionaries. -/
def dtypeEq : DType → DType → Bool
  | .int, .int => true
  | .str, .str => true
  | .cat _, .cat _ => true
  | _, _ => false

/-- A named typed column (`Series`). -/
structure Series where
  name : String
  dtype : DType
  values : List AnyValue
  deriving DecidableEq

/-- Embeds `Series::with_name`. -/
def Series.with_name (s : Series) (n : String) : Series :=
  { s with name := n }

/-- A table (`DataFrame`): ordered list of named equal-length columns. -/
structure DataFrame where
  cols : List Series
  deriving DecidableEq

/-- Embeds `DataFrame::height`: row count, read off the first column. -/
def DataFrame.height (df : DataFrame) : Nat :=
  match df.cols with
  | [] => 0
  | s :: _ => s.values.length

/-- Column names of a table, in order. -/
def DataFrame.names (df : DataFrame) : List String :=
  df.cols.map (·.name)

/-- Join-layer error value (`PolarsError`).  The code in `mod.rs` raises
`ComputeError` for every check it performs and `ColumnNotFound` when a
key name is missing; `invalidInput` is the spec's `InvalidInput` error
class (spec section 7), carried here so that statements can compare the
class the code raises against the class the spec names — the code never
constructs it. -/
inductive JoinError
  | computeError (msg : String)
  | columnNotFound (msg : String)
  | invalidInput (msg : String)
  deriving DecidableEq

/-- Result of a join call: a new table, an error returned as a value, or
a Rust `panic!`/`unreachable!` (abnormal termination, not a value). -/
inductive JoinResult
  | ok (df : DataFrame)
  | err (e : JoinError)
  | panicked (msg : String)
  deriving DecidableEq

/-- Embeds `DataFrame::select_series`: project columns by name, in order. -/
def DataFrame.select_series (df : DataFrame) (names : List String) :
    Except JoinError (List Series) :=
  names.mapM (fun n =>
    match df.cols.find? (fun s => s.name == n) with
    | some s => .ok s
    | none => .error (.columnNotFound n))

/-- Embeds `DataFrame::drop`: remove the column with the given name. -/
def DataFrame.drop (df : DataFrame) (n : String) : DataFrame :=
  ⟨df.cols.filter (fun s => s.name != n)⟩

/-- Embeds `DataFrame::slice`: keep rows `[offset, offset+len)`, clamped to the
frame (offsets are modelled as naturals; the spec states the slice
semantics as rows `[offset, offset+len)`). -/
def DataFrame.slice (df : DataFrame) (offset len : Nat) : DataFrame :=
  ⟨df.cols.map (fun s => { s with values := (s.values.drop offset).take len })⟩

/-- Row gather (`take` / `_take_unchecked_slice`): callers guarantee the
indices are in bounds; an out-of-bounds index reads `null`. -/
def DataFrame.take (df : DataFrame) (idxs : List Nat) : DataFrame :=
  ⟨df.cols.map (fun s => { s with values := idxs.map (fun i => s.values.getD i .null) })⟩

/-- Row gather with optional indices: `none` materializes a null row
(left-join / outer-join unmatched side). -/
def DataFrame.takeOpt (df : DataFrame) (idxs : List (Option Nat)) : DataFrame :=
  ⟨df.cols.map (fun s =>
    { s with values := idxs.map (fun i =>
        match i with
        | some j => s.values.getD j .null
        | none => .null) })⟩

/-- As-of matching strategy. -/
inductive AsofStrategy
  | backward
  | forward
  | nearest
  deriving DecidableEq

/-- Embeds `AsOfOptions`: strategy, optional tolerance, optional equality
"by" key lists for each side. -/
structure AsOfOptions where
  strategy : AsofStrategy
  tolerance : Option Int
  left_by : Option (List String)
  right_by : Option (List String)
  deriving DecidableEq

/-- Embeds `JoinType`. -/
inductive JoinType
  | inner
  | left
  | outer (coalesce : Bool)
  | semi
  | anti
  | asOf (options : AsOfOptions)
  | cross
  deriving DecidableEq

/-- Is this the cross variant? -/
def JoinType.isCross : JoinType → Bool
  | .cross => true
  | _ => false

/-- Embeds `JoinValidation` (the spec's ValidationMode). -/
inductive JoinValidation
  | manyToMany
  | manyToOne
  | oneToMany
  | oneToOne
  deriving DecidableEq

/-- Embeds `JoinArgs`: join type, validation mode, optional suffix, optional
slice, null-equality flag. -/
structure JoinArgs where
  how : JoinType
  validation : JoinValidation
  suffix : Option String
  slice : Option (Nat × Nat)
  join_nulls : Bool
  deriving DecidableEq

/-- Which matching primitive a pipeline step invoked. -/
inductive MatcherKind
  | sortOrHashInner
  | leftSingle
  | outerSingle
  | semiAntiSingle
  | asofBy
  | asofPlain
  | innerMulti
  | leftMulti
  | outerMulti
  | antiSemiMulti
  deriving DecidableEq

/-- Observable pipeline events, in execution order: the entry checks of
`_join_impl` and each invocation of a matching primitive.  The cross
join's cartesian-product fast path is tagged separately because it
bypasses key matching. -/
inductive Event
  | checkValidJoin
  | checkKeyLength
  | checkDType
  | reconcileCategoricals
  | crossProduct
  | matcherInvoked (k : MatcherKind)
  deriving DecidableEq

/-- Is this event an invocation of a matching primitive? -/
def Event.isMatcher : Event → Bool
  | .matcherInvoked _ => true
  | _ => false

/-- Modelled from the spec: slice of a sequence; the bodies of
`slice_slice`/`slice_offsets` are outside the source excerpt; the spec
states the slice semantics as keeping rows `[offset, offset+len)`,
clamped to the sequence. -/
def sliceList {α : Type} (xs : List α) (offset len : Nat) : List α :=
  (xs.drop offset).take len

/-- Apply an optional slice to a sequence. -/
def applySlice {α : Type} (xs : List α) (sl : Option (Nat × Nat)) : List α :=
  match sl with
  | some (o, l) => sliceList xs o l
  | none => xs

/-- Key tuple of row `i` of a key frame. -/
def rowTuple (df : DataFrame) (i : Nat) : List AnyValue :=
  df.cols.map (fun s => s.values.getD i .null)

/-- Does the tuple contain a null component? -/
def tupleHasNull (t : List AnyValue) : Bool :=
  t.any (fun v => v == .null)

/-- Modelled from the spec: key-tuple match (matcher contract, spec 4.5); equality is
exact and componentwise; when `join_nulls` is false a tuple containing a
null component never matches any tuple, when true null components
compare equal. -/
def tuplesMatch (join_nulls : Bool) (a b : List AnyValue) : Bool :=
  decide (a = b) && (join_nulls || !tupleHasNull a)

/-- Modelled from the spec: the equi-matcher for the inner variant
(spec 4.5, body outside the source excerpt); every matching pair `(i, j)` is emitted exactly once;
probe-major order. -/
def innerMatch (l r : DataFrame) (join_nulls : Bool) : List (Nat × Nat) :=
  (List.range l.height).flatMap (fun i =>
    ((List.range r.height).filter (fun j =>
      tuplesMatch join_nulls (rowTuple l i) (rowTuple r j))).map (fun j => (i, j)))

/-- Modelled from the spec: the matcher for the left variant (spec 4.5,
body outside the source excerpt); every left row appears at least once in left order; an unmatched left
row appears exactly once with right index `none`. -/
def leftMatch (l r : DataFrame) (join_nulls : Bool) : List (Nat × Option Nat) :=
  (List.range l.height).flatMap (fun i =>
    let ms := (List.range r.height).filter (fun j =>
      tuplesMatch join_nulls (rowTuple l i) (rowTuple r j))
    if ms.isEmpty then [(i, none)] else ms.map (fun j => (i, some j)))

/-- Modelled from the spec: the matcher for the outer variant (spec
4.5, body outside the source excerpt); every row from either side appears at least once;
matched pairs and unmatched left rows in left order, then unmatched
right rows. -/
def outerMatch (l r : DataFrame) (join_nulls : Bool) : List (Option Nat × Option Nat) :=
  (List.range l.height).flatMap (fun i =>
    let ms := (List.range r.height).filter (fun j =>
      tuplesMatch join_nulls (rowTuple l i) (rowTuple r j))
    if ms.isEmpty then [(some i, none)] else ms.map (fun j => (some i, some j)))
  ++ ((List.range r.height).filter (fun j =>
        ((List.range l.height).filter (fun i =>
          tuplesMatch join_nulls (rowTuple l i) (rowTuple r j))).isEmpty)).map
      (fun j => ((none : Option Nat), some j))

/-- Modelled from the spec: the matcher for the semi variant (spec
4.5, body outside the source excerpt); left indices with at least one
match, each at most once. -/
def semiIdx (l r : DataFrame) (join_nulls : Bool) : List Nat :=
  (List.range l.height).filter (fun i =>
    !((List.range r.height).filter (fun j =>
      tuplesMatch join_nulls (rowTuple l i) (rowTuple r j))).isEmpty)

/-- Modelled from the spec: the matcher for the anti variant (spec 4.5,
body outside the source excerpt); exactly the left indices with zero
matches. -/
def antiIdx (l r : DataFrame) (join_nulls : Bool) : List Nat :=
  (List.range l.height).filter (fun i =>
    ((List.range r.height).filter (fun j =>
      tuplesMatch join_nulls (rowTuple l i) (rowTuple r j))).isEmpty)

/-- Key uniqueness of one side, as demanded by a cardinality mode. -/
def seriesUnique (s : Series) : Bool :=
  decide s.values.Nodup

/-- Modelled from the spec: the cardinality check of the ValidationMode
(spec 4.1, the checking code itself is outside the source excerpt;
`mod.rs` passes the mode into the matching step): `OneToOne` requires
uniqueness on both sides, `OneToMany` left uniqueness, `ManyToOne` right
uniqueness; `some msg` is the violation. -/
def validationMsg (vm : JoinValidation) (sl sr : Series) : Option String :=
  match vm with
  | .manyToMany => none
  | .oneToOne =>
    if !seriesUnique sl then
      some "join keys did not fulfill 1:1 validation, the left side is not unique"
    else if !seriesUnique sr then
      some "join keys did not fulfill 1:1 validation, the right side is not unique"
    else none
  | .oneToMany =>
    if !seriesUnique sl then
      some "join keys did not fulfill 1:m validation, the left side is not unique"
    else none
  | .manyToOne =>
    if !seriesUnique sr then
      some "join keys did not fulfill m:1 validation, the right side is not unique"
    else none

/-- Modelled from the spec: `_sort_or_hash_inner`, the single-key inner
matching step, whose body is outside the source excerpt;
`mod.rs` line 490 passes the ValidationMode into this step, so the model
performs the equi-match and the cardinality check within it.  Sortedness
is not tracked, so the hash route is taken and the returned
sorted-tuples flag is `false`. -/
def sortOrHashInner (s_left s_right : Series) (validation : JoinValidation)
    (join_nulls : Bool) : Except JoinError (List (Nat × Nat) × Bool) :=
  let pairs := innerMatch ⟨[s_left]⟩ ⟨[s_right]⟩ join_nulls
  match validationMsg validation s_left s_right with
  | some m => .error (.computeError m)
  | none => .ok (pairs, false)

/-- Modelled from the spec: `_join_suffix_name` (general.rs, outside the
source excerpt); append the suffix to a colliding name (spec 4.6). -/
def joinSuffixName (n suffix : String) : String :=
  n ++ suffix

/-- Modelled from the spec: embedding of `_finish_join` (spec section 4.6); concatenate
left columns then right columns; a right-side column whose name collides
with a left column gets the configured suffix (default `_right`)
appended once, non-recursively. -/
def finishJoin (df_left df_right : DataFrame) (suffix : Option String) : DataFrame :=
  let suf := suffix.getD "_right"
  let leftNames := df_left.names
  ⟨df_left.cols ++ df_right.cols.map (fun s =>
    if leftNames.contains s.name then { s with name := joinSuffixName s.name suf } else s)⟩

/-- Modelled from the spec: embedding of `_finish_left_join` (spec section 4.6); the
slice is applied to the match sequence before materialization; the left
projection gathers from the full left frame, the right projection
materializes nulls for unmatched rows. -/
def finishLeftJoin (left_df : DataFrame) (ids : List (Nat × Option Nat))
    (other_dropped : DataFrame) (args : JoinArgs) : DataFrame :=
  let ids' := applySlice ids args.slice
  let df_left := left_df.take (ids'.map (·.1))
  let df_right := other_dropped.takeOpt (ids'.map (·.2))
  finishJoin df_left df_right args.suffix

/-- Modelled from the spec: embedding of `_finish_anti_semi_join` (body
outside the source excerpt); slice the qualifying left indices, then
gather from the left frame only. -/
def finishAntiSemiJoin (left_df : DataFrame) (idx : List Nat)
    (slice : Option (Nat × Nat)) : DataFrame :=
  left_df.take (applySlice idx slice)

/-- Merge one outer-join key pair: the column named `ln` takes the left
value when present, else the right value; the right column `rn` is then
dropped. -/
def mergeKeyPair (df : DataFrame) (ln rn : String) : DataFrame :=
  match df.cols.find? (fun s => s.name == ln), df.cols.find? (fun s => s.name == rn) with
  | some cl, some cr =>
    let merged := List.zipWith (fun a b =>
      match a with
      | AnyValue.null => b
      | v => v) cl.values cr.values
    ⟨(df.cols.map (fun s => if s.name == ln then { s with values := merged } else s)).filter
      (fun s => s.name != rn)⟩
  | _, _ => df

/-- Modelled from the spec: embedding of `coalesce_outer_join` (spec section 4.6); each
original key-column pair is merged into one column preferring the left
value when present, else the right value, and the right source column is
dropped; the right key column carries the suffix iff its name collided
with a left column. -/
def coalesceOuterJoin (out : DataFrame) (namesL namesR : List String)
    (suffix : Option String) (left_df : DataFrame) : DataFrame :=
  let suf := suffix.getD "_right"
  (namesL.zip namesR).foldl (fun acc p =>
    let rn := if left_df.names.contains p.2 then joinSuffixName p.2 suf else p.2
    mergeKeyPair acc p.1 rn) out

/-- Integer value of a row of an as-of ordering key, `none` when null or
non-numeric. -/
def seriesIntAt (s : Series) (i : Nat) : Option Int :=
  match s.values.getD i .null with
  | .int v => some v
  | _ => none

/-- Absolute value on `Int`. -/
def absInt (i : Int) : Int :=
  if i < 0 then -i else i

/-- Modelled from the spec: candidate right rows of an as-of match —
direction per strategy, within the tolerance when one is set (spec
glossary: nearest right row under the ordering key, within an optional
tolerance, per a backward/forward/nearest strategy). -/
def asofCandidates (strategy : AsofStrategy) (tol : Option Int) (lv : Int)
    (rvs : List (Nat × Int)) : List (Nat × Int) :=
  let tolOk := fun (rv : Int) =>
    match tol with
    | none => true
    | some t => decide (absInt (lv - rv) ≤ t)
  match strategy with
  | .backward => rvs.filter (fun c => decide (c.2 ≤ lv) && tolOk c.2)
  | .forward => rvs.filter (fun c => decide (lv ≤ c.2) && tolOk c.2)
  | .nearest => rvs.filter (fun c => tolOk c.2)

/-- Best as-of candidate: greatest value for backward, least for
forward, closest for nearest. -/
def asofBest (strategy : AsofStrategy) (lv : Int) (cands : List (Nat × Int)) : Option Nat :=
  (cands.foldl (fun acc c =>
    match acc with
    | none => some c
    | some b =>
      let keep : Bool :=
        match strategy with
        | .backward => decide (b.2 ≤ c.2)
        | .forward => decide (c.2 < b.2)
        | .nearest => decide (absInt (lv - c.2) < absInt (lv - b.2))
      if keep then some c else some b) none).map (·.1)

/-- As-of index pairs of two ordering-key columns. -/
def asofIds (sl sr : Series) (strategy : AsofStrategy) (tol : Option Int) :
    List (Nat × Option Nat) :=
  let rvs := (List.range sr.values.length).filterMap (fun j =>
    (seriesIntAt sr j).map (fun v => (j, v)))
  (List.range sl.values.length).map (fun i =>
    match seriesIntAt sl i with
    | none => (i, none)
    | some lv => (i, asofBest strategy lv (asofCandidates strategy tol lv rvs)))

/-- By-key tuple of row `i` over the named columns of a frame. -/
def byTuple (df : DataFrame) (names : List String) (i : Nat) : List AnyValue :=
  names.map (fun n =>
    match df.cols.find? (fun s => s.name == n) with
    | some s => s.values.getD i .null
    | none => .null)

/-- Modelled from the spec: embedding of `_join_asof`; `asof.rs` is outside the
source excerpt; the ordering-key columns are re-selected by name from
the two frames, matched per strategy/tolerance, the optional slice is
applied to the match sequence, and the result is materialized with the
right ordering key dropped. -/
def joinAsof (left_df other : DataFrame) (left_on right_on : String)
    (opts : AsOfOptions) (suffix : Option String) (slice : Option (Nat × Nat)) :
    JoinResult × List Event :=
  let sl := (left_df.cols.find? (fun s => s.name == left_on)).getD ⟨left_on, .int, []⟩
  let sr := (other.cols.find? (fun s => s.name == right_on)).getD ⟨right_on, .int, []⟩
  let ids := applySlice (asofIds sl sr opts.strategy opts.tolerance) slice
  let dfl := left_df.take (ids.map (·.1))
  let dfr := (other.drop right_on).takeOpt (ids.map (·.2))
  (.ok (finishJoin dfl dfr suffix), [.matcherInvoked .asofPlain])

/-- Modelled from the spec: embedding of `_join_asof_by`; like `joinAsof` but the
right candidates of each left row are restricted to rows whose by-key
tuple equals the left row's by-key tuple. -/
def joinAsofBy (left_df other : DataFrame) (left_on right_on : String)
    (left_by right_by : List String) (opts : AsOfOptions)
    (suffix : Option String) (slice : Option (Nat × Nat)) :
    JoinResult × List Event :=
  let sl := (left_df.cols.find? (fun s => s.name == left_on)).getD ⟨left_on, .int, []⟩
  let sr := (other.cols.find? (fun s => s.name == right_on)).getD ⟨right_on, .int, []⟩
  let ids0 := (List.range sl.values.length).map (fun i =>
    match seriesIntAt sl i with
    | none => (i, (none : Option Nat))
    | some lv =>
      let rvs := (List.range sr.values.length).filterMap (fun j =>
        if byTuple other right_by j == byTuple left_df left_by i then
          (seriesIntAt sr j).map (fun v => (j, v))
        else none)
      (i, asofBest opts.strategy lv (asofCandidates opts.strategy opts.tolerance lv rvs)))
  let ids := applySlice ids0 slice
  let dfl := left_df.take (ids.map (·.1))
  let dfr := (other.drop right_on).takeOpt (ids.map (·.2))
  (.ok (finishJoin dfl dfr suffix), [.matcherInvoked .asofBy])

/-- Cartesian product of row indices, row-major. -/
def crossPairs (hl hr : Nat) : List (Nat × Nat) :=
  (List.range hl).flatMap (fun i => (List.range hr).map (fun j => (i, j)))

/-- Modelled from the spec: embedding of `DataFrame::cross_join` (spec
4.3, body outside the source excerpt); bypasses key matching entirely,
producing the cartesian product of row indices, optionally sliced, then
materializing both sides and resolving name collisions with the
suffix. -/
def crossJoinDF (df_left other : DataFrame) (suffix : Option String)
    (slice : Option (Nat × Nat)) : JoinResult × List Event :=
  let pairs := applySlice (crossPairs df_left.height other.height) slice
  let dfl := df_left.take (pairs.map (·.1))
  let dfr := other.take (pairs.map (·.2))
  (.ok (finishJoin dfl dfr suffix), [.crossProduct])

/-- Re-encode one categorical code against the union dictionary. -/
def recodeValue (old union : List String) : AnyValue → AnyValue
  | .int c => .int (Int.ofNat (union.findIdx (fun d => d == old.getD c.toNat "")))
  | v => v

/-- Modelled from the spec: embedding of `make_categoricals_compatible`
(spec 4.2, body outside the source excerpt); build the union dictionary
of both sides and re-encode both columns against it, so equal strings
produce equal codes. -/
def makeCategoricalsCompatible (l r : Series) (dl dr : List String) : Series × Series :=
  let union := (dl ++ dr).dedup
  (⟨l.name, .cat union, l.values.map (recodeValue dl union)⟩,
   ⟨r.name, .cat union, r.values.map (recodeValue dr union)⟩)

/-- Reconciliation of one key pair: two categorical columns with
different dictionaries are re-encoded against the union dictionary
(`_check_categorical_src` failing triggers the compatible path);
anything else is left unchanged. -/
def reconcilePair (l r : Series) : Series × Series :=
  match l.dtype, r.dtype with
  | .cat dl, .cat dr => if dl == dr then (l, r) else makeCategoricalsCompatible l r dl dr
  | _, _ => (l, r)

/-- The categorical-reconciliation loop of `_join_impl` over all key
pairs. -/
def reconcileCats (ls rs : List Series) : List Series × List Series :=
  let ps := (ls.zip rs).map (fun p => reconcilePair p.1 p.2)
  (ps.map (·.1), ps.map (·.2))

/-- First key pair whose dtypes disagree (`find` in `_join_impl`). -/
def findDtypeMismatch (ls rs : List Series) : Option (Series × Series) :=
  (ls.zip rs).find? (fun p => !dtypeEq p.1.dtype p.2.dtype)

/-- Modelled from the spec: embedding of `_to_physical_and_bit_repr`
(spec 4.2, body outside the source excerpt); categorical columns drop to
their integer codes, other columns here already are physical;
conversion preserves equality and discards logical-type metadata. -/
def toPhysical (ss : List Series) : List Series :=
  ss.map (fun s =>
    match s.dtype with
    | .cat _ => { s with dtype := .int }
    | _ => s)

/-- Modelled from the spec: embedding of the `det_hash_prone_order!`
macro (spec 4.4, body outside the source excerpt); the shorter relation
becomes the build side (second component); returns probe frame, build
frame, swap flag; pure function of the two row counts, ties break to no
swap. -/
def detHashProneOrder (a b : DataFrame) : DataFrame × DataFrame × Bool :=
  if a.height < b.height then (b, a, true) else (a, b, false)

/-- Modelled from the spec: embedding of `_inner_join_multiple_keys`
(spec 4.4, body outside the source excerpt); match probe against build
and re-orient the pairs to the caller side when the sides were swapped;
the swap flag is threaded so the output orientation matches the caller
original left/right. -/
def innerJoinMultipleKeys (a b : DataFrame) (swap : Bool) (join_nulls : Bool) :
    List (Nat × Nat) :=
  let raw := innerMatch a b join_nulls
  if swap then raw.map (fun p => (p.2, p.1)) else raw

/-- Modelled from the spec: embedding of `_left_join_multiple_keys`
(body outside the source excerpt; no chunk mapping in the logical
model). -/
def leftJoinMultipleKeys (a b : DataFrame) (join_nulls : Bool) :
    List (Nat × Option Nat) :=
  leftMatch a b join_nulls

/-- Modelled from the spec: embedding of `_outer_join_multiple_keys`
(body outside the source excerpt); like the inner variant, with the swap
flag re-orienting the optional index pairs. -/
def outerJoinMultipleKeys (a b : DataFrame) (swap : Bool) (join_nulls : Bool) :
    List (Option Nat × Option Nat) :=
  let raw := outerMatch a b join_nulls
  if swap then raw.map (fun p => (p.2, p.1)) else raw

/-- The pair computation of the multi-key Inner branch of `_join_impl`:
build/probe ordering by the optimizer, matching, re-orientation by the
swap flag. -/
def innerMultiIds (lf rf : DataFrame) (join_nulls : Bool) : List (Nat × Nat) :=
  let (a, b, swap) := detHashProneOrder lf rf
  innerJoinMultipleKeys a b swap join_nulls

/-- The pair computation of the multi-key Outer branch of `_join_impl`. -/
def outerMultiIds (lf rf : DataFrame) (join_nulls : Bool) :
    List (Option Nat × Option Nat) :=
  let (a, b, swap) := detHashProneOrder lf rf
  outerJoinMultipleKeys a b swap join_nulls

/-- Embeds `remove_selected`: drop every selected key column from a frame. -/
def removeSelected (df : DataFrame) (selected : List Series) : DataFrame :=
  selected.foldl (fun acc s => acc.drop s.name) df

/-- Embeds `_inner_join_from_series` (mod.rs lines 478-511): categorical check,
the matching step with the ValidationMode inside it, slice of the match
tuples, dual gather, suffix resolution. -/
def innerJoinFromSeries (left_df other : DataFrame) (s_left s_right : Series)
    (args : JoinArgs) : JoinResult × List Event :=
  match sortOrHashInner s_left s_right args.validation args.join_nulls with
  | .error e => (.err e, [.matcherInvoked .sortOrHashInner])
  | .ok (pairs0, _) =>
    let pairs := applySlice pairs0 args.slice
    let df_left := left_df.take (pairs.map (·.1))
    let df_right := (other.drop s_right.name).take (pairs.map (·.2))
    (.ok (finishJoin df_left df_right args.suffix), [.matcherInvoked .sortOrHashInner])

/-- Modelled from the spec: embedding of `_left_join_from_series`; its body is
outside the source excerpt; like the inner case the ValidationMode
travels into the matching step, and `_finish_left_join` slices the match
sequence before materialization. -/
def leftJoinFromSeries (left_df other : DataFrame) (s_left s_right : Series)
    (args : JoinArgs) : JoinResult × List Event :=
  match validationMsg args.validation s_left s_right with
  | some m => (.err (.computeError m), [.matcherInvoked .leftSingle])
  | none =>
    let ids := leftMatch ⟨[s_left]⟩ ⟨[s_right]⟩ args.join_nulls
    (.ok (finishLeftJoin left_df ids (other.drop s_right.name) args),
     [.matcherInvoked .leftSingle])

/-- Modelled from the spec: embedding of `_outer_join_from_series`; outer matching,
slice of the match sequence, dual gather of both full frames, suffix
resolution, and key-pair coalescing when requested. -/
def outerJoinFromSeries (left_df other : DataFrame) (s_left s_right : Series)
    (args : JoinArgs) : JoinResult × List Event :=
  let ids := applySlice (outerMatch ⟨[s_left]⟩ ⟨[s_right]⟩ args.join_nulls) args.slice
  let dfl := left_df.takeOpt (ids.map (·.1))
  let dfr := other.takeOpt (ids.map (·.2))
  let out := finishJoin dfl dfr args.suffix
  match args.how with
  | .outer true =>
    (.ok (coalesceOuterJoin out [s_left.name] [s_right.name] args.suffix left_df),
     [.matcherInvoked .outerSingle])
  | _ => (.ok out, [.matcherInvoked .outerSingle])

/-- Modelled from the spec: embedding of `_semi_anti_join_from_series`; qualifying
left indices, sliced, gathered from the left frame only. -/
def semiAntiJoinFromSeries (left_df : DataFrame) (s_left s_right : Series)
    (slice : Option (Nat × Nat)) (anti : Bool) : JoinResult × List Event :=
  let idx :=
    if anti then antiIdx ⟨[s_left]⟩ ⟨[s_right]⟩ false
    else semiIdx ⟨[s_left]⟩ ⟨[s_right]⟩ false
  (.ok (finishAntiSemiJoin left_df idx slice), [.matcherInvoked .semiAntiSingle])

/-- The single-key dispatch of `_join_impl` (mod.rs lines 200-256).  The
as-of arm with by-keys on exactly one side executes
`panic!("expected by arguments on both sides")`; the cross arm is
`unreachable!()`. -/
def singleKeyDispatch (left_df other : DataFrame) (s_left s_right : Series)
    (args : JoinArgs) : JoinResult × List Event :=
  match args.how with
  | .inner => innerJoinFromSeries left_df other s_left s_right args
  | .left => leftJoinFromSeries left_df other s_left s_right args
  | .outer _ => outerJoinFromSeries left_df other s_left s_right args
  | .anti => semiAntiJoinFromSeries left_df s_left s_right args.slice true
  | .semi => semiAntiJoinFromSeries left_df s_left s_right args.slice false
  | .asOf opts =>
    match opts.left_by, opts.right_by with
    | some lb, some rb =>
      joinAsofBy left_df other s_left.name s_right.name lb rb opts args.suffix args.slice
    | none, none =>
      joinAsof left_df other s_left.name s_right.name opts args.suffix args.slice
    | _, _ => (.panicked "expected by arguments on both sides", [])
  | .cross => (.panicked "internal error: entered unreachable code", [])

/-- The multi-key dispatch of `_join_impl` (mod.rs lines 269-373).  The
Left arm slices the left key frame before matching when a slice is
requested (mod.rs lines 305-307); the Inner and Outer arms slice the
match sequence after matching; the as-of arm bails with `ComputeError`. -/
def multiKeyDispatch (left_df other : DataFrame)
    (selected_left selected_right : List Series) (args : JoinArgs) :
    JoinResult × List Event :=
  let selected_left_physical := toPhysical selected_left
  let selected_right_physical := toPhysical selected_right
  match args.how with
  | .inner =>
    let pairs := applySlice
      (innerMultiIds ⟨selected_left_physical⟩ ⟨selected_right_physical⟩ args.join_nulls)
      args.slice
    let df_left := left_df.take (pairs.map (·.1))
    let df_right := (removeSelected other selected_right).take (pairs.map (·.2))
    (.ok (finishJoin df_left df_right args.suffix), [.matcherInvoked .innerMulti])
  | .left =>
    let lf0 : DataFrame := ⟨selected_left_physical⟩
    let lf :=
      match args.slice with
      | some (o, l) => lf0.slice o l
      | none => lf0
    let ids := leftJoinMultipleKeys lf ⟨selected_right_physical⟩ args.join_nulls
    (.ok (finishLeftJoin left_df ids (removeSelected other selected_right) args),
     [.matcherInvoked .leftMulti])
  | .outer coalesce =>
    let ids := applySlice
      (outerMultiIds ⟨selected_left_physical⟩ ⟨selected_right_physical⟩ args.join_nulls)
      args.slice
    let df_left := left_df.takeOpt (ids.map (·.1))
    let df_right := other.takeOpt (ids.map (·.2))
    let out := finishJoin df_left df_right args.suffix
    if coalesce then
      (.ok (coalesceOuterJoin out (selected_left.map (·.name)) (selected_right.map (·.name))
              args.suffix left_df),
       [.matcherInvoked .outerMulti])
    else
      (.ok out, [.matcherInvoked .outerMulti])
  | .asOf _ =>
    (.err (.computeError "asof join not supported for join on multiple keys"), [])
  | .anti =>
    let idx := antiIdx ⟨selected_left_physical⟩ ⟨selected_right_physical⟩ args.join_nulls
    (.ok (finishAntiSemiJoin left_df idx args.slice), [.matcherInvoked .antiSemiMulti])
  | .semi =>
    let idx := semiIdx ⟨selected_left_physical⟩ ⟨selected_right_physical⟩ args.join_nulls
    (.ok (finishAntiSemiJoin left_df idx args.slice), [.matcherInvoked .antiSemiMulti])
  | .cross => (.panicked "internal error: entered unreachable code", [])

/-- Modelled from the spec: embedding of `JoinValidation::is_valid_join`,
the first statement of `_join_impl`; `args.rs` is outside the source
excerpt; the spec (section 2) lists a "cardinality-validation mode"
entry-point check but assigns it no failure condition of its own, so the
model records that the check ran and passes. -/
def is_valid_join (_vm : JoinValidation) (_how : JoinType) (_n_keys : Nat) :
    Except JoinError Unit :=
  .ok ()

/-- Embeds `_join_impl` (mod.rs lines 105-374): validation-mode entry check;
cross-join shortcut (forwarding `args.slice`); key-list length check
(`ComputeError`); pairwise dtype check (`ComputeError`); categorical
reconciliation; then single-key or multi-key dispatch.  The rechunk
branch is the identity on the logical frames and is omitted. -/
def joinImpl (left_df other : DataFrame)
    (selected_left selected_right : List Series) (args : JoinArgs) :
    JoinResult × List Event :=
  match is_valid_join args.validation args.how selected_left.length with
  | .error e => (.err e, [.checkValidJoin])
  | .ok _ =>
    if args.how.isCross then
      let ct := crossJoinDF left_df other args.suffix args.slice
      (ct.1, .checkValidJoin :: ct.2)
    else if selected_left.length = selected_right.length then
      match findDtypeMismatch selected_left selected_right with
      | some p =>
        (.err (.computeError ("datatypes of join keys do not match - " ++ p.1.name
            ++ ": on left does not match " ++ p.2.name ++ ": on right")),
         [.checkValidJoin, .checkKeyLength, .checkDType])
      | none =>
        let selL := (reconcileCats selected_left selected_right).1
        let selR := (reconcileCats selected_left selected_right).2
        let tr0 := [Event.checkValidJoin, .checkKeyLength, .checkDType,
          .reconcileCategoricals]
        if selL.length = 1 then
          let d := singleKeyDispatch left_df other (selL.headD ⟨"", .int, []⟩)
            (selR.headD ⟨"", .int, []⟩) args
          (d.1, tr0 ++ d.2)
        else
          let d := multiKeyDispatch left_df other selL selR args
          (d.1, tr0 ++ d.2)
    else
      (.err (.computeError ("the number of columns given as join key (left: "
          ++ toString selected_left.length ++ ", right:"
          ++ toString selected_right.length ++ ") should be equal")),
       [.checkValidJoin, .checkKeyLength])

/-- The two operand tables of a join call; the entry points receive them
by shared reference, so a call can read but not write them. -/
structure Store where
  left : DataFrame
  right : DataFrame
  deriving DecidableEq

/-- The public `DataFrameJoinOps::join` entry point (mod.rs lines
81-100): the cross variant short-circuits before key selection,
forwarding the suffix and passing `None` as the slice; otherwise both
key lists are selected and `_join_impl` runs.  The final store is the
state of the two operand tables after the call. -/
def join (st : Store) (left_on right_on : List String) (args : JoinArgs) :
    (JoinResult × List Event) × Store :=
  if args.how.isCross then
    (crossJoinDF st.left st.right args.suffix none, st)
  else
    match st.left.select_series left_on with
    | .error e => ((.err e, []), st)
    | .ok selected_left =>
      match st.right.select_series right_on with
      | .error e => ((.err e, []), st)
      | .ok selected_right =>
        (joinImpl st.left st.right selected_left selected_right args, st)

/-- Result component of a `join` call. -/
def joinRes (st : Store) (left_on right_on : List String) (args : JoinArgs) : JoinResult :=
  (join st left_on right_on args).1.1

/-- Result component of a `_join_impl` call. -/
def joinImplRes (left_df other : DataFrame)
    (selected_left selected_right : List Series) (args : JoinArgs) : JoinResult :=
  (joinImpl left_df other selected_left selected_right args).1

/-- Event trace of a `_join_impl` call. -/
def joinImplTrace (left_df other : DataFrame)
    (selected_left selected_right : List Series) (args : JoinArgs) : List Event :=
  (joinImpl left_df other selected_left selected_right args).2

/-- Is the result an error of the spec's `InvalidInput` class? -/
def isInvalidInputRes : JoinResult → Bool
  | .err (.invalidInput _) => true
  | _ => false

/-- Concrete single key column, left side: `id = [1, 2, 2, 3]` (the
spec's section 8 scenario). -/
def exIdL : Series := ⟨"id", .int, [.int 1, .int 2, .int 2, .int 3]⟩

/-- Concrete single key column, right side: `id = [2, 2, 4]`. -/
def exIdR : Series := ⟨"id", .int, [.int 2, .int 2, .int 4]⟩

/-- Concrete two-key left table: `k1 = [1, 2]`, `k2 = [1, 2]`. -/
def exK1L : Series := ⟨"k1", .int, [.int 1, .int 2]⟩

/-- Second key column of the two-key left table. -/
def exK2L : Series := ⟨"k2", .int, [.int 1, .int 2]⟩

/-- Concrete two-key right table: `k1 = [2, 2]`. -/
def exK1R : Series := ⟨"k1", .int, [.int 2, .int 2]⟩

/-- Second key column of the two-key right table. -/
def exK2R : Series := ⟨"k2", .int, [.int 2, .int 2]⟩

/-- Payload column of the two-key right table: `p = [10, 20]`. -/
def exPayR : Series := ⟨"p", .int, [.int 10, .int 20]⟩

/-- The two-key left table. -/
def exFrameL2 : DataFrame := ⟨[exK1L, exK2L]⟩

/-- The two-key right table. -/
def exFrameR2 : DataFrame := ⟨[exK1R, exK2R, exPayR]⟩

/-- Key-list length mismatch: for every non-cross call whose selected
key lists have different lengths, `_join_impl` stops right after the
validation-mode entry check with the `ComputeError` of mod.rs lines
162-170, before any matching work. -/
theorem joinImpl_length_mismatch (left_df other : DataFrame)
    (selL selR : List Series) (args : JoinArgs)
    (hcross : args.how.isCross = false) (hne : selL.length ≠ selR.length) :
    joinImpl left_df other selL selR args =
      (.err (.computeError ("the number of columns given as join key (left: "
          ++ toString selL.length ++ ", right:" ++ toString selR.length
          ++ ") should be equal")),
       [.checkValidJoin, .checkKeyLength]) := by
  simp [joinImpl, is_valid_join, hcross, hne]

/-- C1: the slicing law `join(..., slice=(offset,len)) = rows
[offset, offset+len) of the unsliced join` fails on the multi-key Left
branch: with `slice = (1, 2)` on the two-key tables
`L.(k1,k2) = [(1,1),(2,2)]`, `R.(k1,k2) = [(2,2),(2,2)]`, `R.p = [10,20]`,
the code slices the left key frame before matching (and the match
sequence is sliced again before materialization), producing the single
row `(1, 1, 20)` — whereas rows `[1, 3)` of the unsliced join are
`(2,2,10), (2,2,20)`.  The code even gathers left rows through indices
that refer to the sliced key frame, so the wrong left rows are
materialized. -/
theorem c1_left_multi_slice_bug :
    joinImplRes exFrameL2 exFrameR2 [exK1L, exK2L] [exK1R, exK2R]
        ⟨.left, .manyToMany, none, some (1, 2), false⟩ =
      .ok ⟨[⟨"k1", .int, [.int 1]⟩, ⟨"k2", .int, [.int 1]⟩, ⟨"p", .int, [.int 20]⟩]⟩
    ∧ joinImplRes exFrameL2 exFrameR2 [exK1L, exK2L] [exK1R, exK2R]
        ⟨.left, .manyToMany, none, none, false⟩ =
      .ok ⟨[⟨"k1", .int, [.int 1, .int 2, .int 2]⟩,
            ⟨"k2", .int, [.int 1, .int 2, .int 2]⟩,
            ⟨"p", .int, [.null, .int 10, .int 20]⟩]⟩
    ∧ joinImplRes exFrameL2 exFrameR2 [exK1L, exK2L] [exK1R, exK2R]
        ⟨.left, .manyToMany, none, some (1, 2), false⟩ ≠
      .ok ((⟨[⟨"k1", .int, [.int 1, .int 2, .int 2]⟩,
              ⟨"k2", .int, [.int 1, .int 2, .int 2]⟩,
              ⟨"p", .int, [.null, .int 10, .int 20]⟩]⟩ : DataFrame).slice 1 2) :=
  ⟨by decide, by decide, by decide⟩

/-- C5 counterexample: a non-cross call with key lists of lengths 1 and
2 fails with a `ComputeError` — not an error of the spec's
`InvalidInput` class — and the first check performed is the
validation-mode entry check, not the key-list length check. -/
theorem c5_counterexample_class_and_order :
    joinImplRes ⟨[exIdL]⟩ ⟨[exIdR]⟩ [exIdL] [exIdR, exIdR]
        ⟨.inner, .manyToMany, none, none, false⟩ =
      .err (.computeError
        "the number of columns given as join key (left: 1, right:2) should be equal")
    ∧ isInvalidInputRes (joinImplRes ⟨[exIdL]⟩ ⟨[exIdR]⟩ [exIdL] [exIdR, exIdR]
        ⟨.inner, .manyToMany, none, none, false⟩) = false
    ∧ (joinImplTrace ⟨[exIdL]⟩ ⟨[exIdR]⟩ [exIdL] [exIdR, exIdR]
        ⟨.inner, .manyToMany, none, none, false⟩).head? = some Event.checkValidJoin
    ∧ (joinImplTrace ⟨[exIdL]⟩ ⟨[exIdR]⟩ [exIdL] [exIdR, exIdR]
        ⟨.inner, .manyToMany, none, none, false⟩).head? ≠ some Event.checkKeyLength := by
  refine ⟨by decide, by decide, by decide, by decide⟩

/-- C5 (amended): for every non-cross join call whose key-name lists
have different lengths, the call fails before any matching work with the
`ComputeError` naming both lengths; the key-list length check is the
second check performed, preceded by the validation-mode entry check. -/
theorem c5_amended_key_length_check (left_df other : DataFrame)
    (selL selR : List Series) (args : JoinArgs)
    (hcross : args.how.isCross = false) (hne : selL.length ≠ selR.length) :
    joinImplRes left_df other selL selR args =
      .err (.computeError ("the number of columns given as join key (left: "
          ++ toString selL.length ++ ", right:" ++ toString selR.length
          ++ ") should be equal"))
    ∧ joinImplTrace left_df other selL selR args = [.checkValidJoin, .checkKeyLength]
    ∧ ∀ e ∈ joinImplTrace left_df other selL selR args, e.isMatcher = false := by
  have h := joinImpl_length_mismatch left_df other selL selR args hcross hne
  refine ⟨?_, ?_, ?_⟩
  · unfold joinImplRes
    rw [h]
  · unfold joinImplTrace
    rw [h]
  · unfold joinImplTrace
    rw [h]
    intro e he
    cases he with
    | head => rfl
    | tail _ he2 =>
      cases he2 with
      | head => rfl
      | tail _ he3 => cases he3

/-- Witness for C5 (amended) at the concrete length-1 and length-2 key
lists. -/
theorem c5_amended_key_length_check_witness :
    ((JoinType.inner.isCross = false) ∧ [exIdL].length ≠ [exIdR, exIdR].length)
    ∧ (joinImplRes ⟨[exIdL]⟩ ⟨[exIdR]⟩ [exIdL] [exIdR, exIdR]
          ⟨.inner, .manyToMany, none, none, false⟩ =
        .err (.computeError ("the number of columns given as join key (left: "
            ++ toString [exIdL].length ++ ", right:" ++ toString [exIdR, exIdR].length
            ++ ") should be equal"))
      ∧ joinImplTrace ⟨[exIdL]⟩ ⟨[exIdR]⟩ [exIdL] [exIdR, exIdR]
          ⟨.inner, .manyToMany, none, none, false⟩ =
            [.checkValidJoin, .checkKeyLength]
      ∧ ∀ e ∈ joinImplTrace ⟨[exIdL]⟩ ⟨[exIdR]⟩ [exIdL] [exIdR, exIdR]
          ⟨.inner, .manyToMany, none, none, false⟩, e.isMatcher = false) :=
  ⟨⟨rfl, by decide⟩,
    c5_amended_key_length_check ⟨[exIdL]⟩ ⟨[exIdR]⟩ [exIdL] [exIdR, exIdR]
      ⟨.inner, .manyToMany, none, none, false⟩ rfl (by decide)⟩

theorem reconcileCats_fst_length (ls rs : List Series) :
    (reconcileCats ls rs).1.length = min ls.length rs.length := by
  simp [reconcileCats]

/-- Every event of the two-check prefix trace is not a matcher
invocation. -/
theorem no_matcher_in_entry_checks :
    ∀ e ∈ [Event.checkValidJoin, Event.checkKeyLength], e.isMatcher = false := by
  decide

/-- Every event of the three-check prefix trace is not a matcher
invocation. -/
theorem no_matcher_in_three_checks :
    ∀ e ∈ [Event.checkValidJoin, Event.checkKeyLength, Event.checkDType],
      e.isMatcher = false := by
  decide

/-- Neither event of the cross-join fast path is a matcher invocation. -/
theorem no_matcher_in_cross_trace :
    ∀ e ∈ [Event.checkValidJoin, Event.crossProduct], e.isMatcher = false := by
  decide

/-- Pairwise dtype mismatch: for every non-cross call whose selected key
lists have equal lengths but a dtype-mismatching pair, `_join_impl`
stops at the dtype check with the `ComputeError` of mod.rs lines
172-184, before any matching work. -/
theorem joinImpl_dtype_mismatch (left_df other : DataFrame)
    (selL selR : List Series) (args : JoinArgs) (p : Series × Series)
    (hcross : args.how.isCross = false) (hlen : selL.length = selR.length)
    (hdm : findDtypeMismatch selL selR = some p) :
    joinImpl left_df other selL selR args =
      (.err (.computeError ("datatypes of join keys do not match - " ++ p.1.name
          ++ ": on left does not match " ++ p.2.name ++ ": on right")),
       [.checkValidJoin, .checkKeyLength, .checkDType]) := by
  simp [joinImpl, is_valid_join, hcross, hlen, hdm]

/-- C2: the Cross variant bypasses key matching.  The public entry point
short-circuits before key selection — so any supplied key names, even
nonexistent ones, are ignored — forwarding the suffix and passing `none`
as the slice; the `_join_impl` path forwards `args.slice`; the result is
the materialized cartesian product of row indices (sliced when a slice
is given), no matching primitive is ever invoked, and `crossPairs` is
exactly the set of pairs `(i, j)` with `i < height(left)`,
`j < height(right)`. -/
theorem c2_cross_bypass (st : Store) (left_on right_on left_on2 right_on2 : List String)
    (selL selR : List Series) (args : JoinArgs) (h : args.how = .cross) :
    (join st left_on right_on args).1 = crossJoinDF st.left st.right args.suffix none
    ∧ (join st left_on right_on args).1 = (join st left_on2 right_on2 args).1
    ∧ joinImpl st.left st.right selL selR args =
        ((crossJoinDF st.left st.right args.suffix args.slice).1,
         .checkValidJoin :: (crossJoinDF st.left st.right args.suffix args.slice).2)
    ∧ (crossJoinDF st.left st.right args.suffix args.slice).1 =
        .ok (finishJoin
          (st.left.take ((applySlice (crossPairs st.left.height st.right.height)
              args.slice).map (·.1)))
          (st.right.take ((applySlice (crossPairs st.left.height st.right.height)
              args.slice).map (·.2)))
          args.suffix)
    ∧ (∀ e ∈ (join st left_on right_on args).1.2, e.isMatcher = false)
    ∧ (∀ e ∈ (joinImpl st.left st.right selL selR args).2, e.isMatcher = false)
    ∧ (∀ hl hr i j, (i, j) ∈ crossPairs hl hr ↔ i < hl ∧ j < hr) := by
  have hc : args.how.isCross = true := by rw [h]; rfl
  have hj : (join st left_on right_on args).1 =
      crossJoinDF st.left st.right args.suffix none := by
    unfold join
    rw [if_pos hc]
  have hj2 : (join st left_on2 right_on2 args).1 =
      crossJoinDF st.left st.right args.suffix none := by
    unfold join
    rw [if_pos hc]
  have hi : joinImpl st.left st.right selL selR args =
      ((crossJoinDF st.left st.right args.suffix args.slice).1,
       .checkValidJoin :: (crossJoinDF st.left st.right args.suffix args.slice).2) := by
    unfold joinImpl is_valid_join
    rw [if_pos hc]
  refine ⟨hj, hj.trans hj2.symm, hi, rfl, ?_, ?_, ?_⟩
  · rw [hj]
    intro e he
    cases he with
    | head => rfl
    | tail _ he2 => cases he2
  · rw [hi]
    intro e he
    cases he with
    | head => rfl
    | tail _ he2 =>
      cases he2 with
      | head => rfl
      | tail _ he3 => cases he3
  · intro hl hr i j
    constructor
    · intro hm
      simp only [crossPairs, List.mem_flatMap, List.mem_map, List.mem_range] at hm
      obtain ⟨a, ha, b, hb, heq⟩ := hm
      cases heq
      exact ⟨ha, hb⟩
    · intro hm
      simp only [crossPairs, List.mem_flatMap, List.mem_map, List.mem_range]
      exact ⟨i, hm.1, j, hm.2, rfl⟩

/-- Witness for C2 at concrete tables and a cross JoinSpec carrying a
slice. -/
theorem c2_cross_bypass_witness :
    ((⟨.cross, .manyToMany, none, some (1, 2), false⟩ : JoinArgs).how = .cross)
    ∧ (join ⟨exFrameL2, exFrameR2⟩ ["x"] ["y"]
          ⟨.cross, .manyToMany, none, some (1, 2), false⟩).1 =
        crossJoinDF exFrameL2 exFrameR2 none none :=
  ⟨rfl, (c2_cross_bypass ⟨exFrameL2, exFrameR2⟩ ["x"] ["y"] ["a"] ["b"] [] []
      ⟨.cross, .manyToMany, none, some (1, 2), false⟩ rfl).1⟩

/-- C3 counterexample: the spec's own scenario (`L.id = [1,2,2,3]`,
`R.id = [2,2,4]`, OneToOne) fails cardinality validation, yet the trace
contains the invocation of the matching step `_sort_or_hash_inner` — a
request that fails validation does invoke the matcher, refuting the
claim that it never does. -/
theorem c3_counterexample_validation_invokes_matcher :
    joinImplRes ⟨[exIdL]⟩ ⟨[exIdR]⟩ [exIdL] [exIdR]
        ⟨.inner, .oneToOne, none, none, false⟩ =
      .err (.computeError
        "join keys did not fulfill 1:1 validation, the left side is not unique")
    ∧ (Event.matcherInvoked .sortOrHashInner) ∈
        joinImplTrace ⟨[exIdL]⟩ ⟨[exIdR]⟩ [exIdL] [exIdR]
          ⟨.inner, .oneToOne, none, none, false⟩ :=
  ⟨by decide, by decide⟩

/-- C3 (amended): every validation check other than cardinality runs to
completion before any matcher invocation — a call rejected by the
key-list length check or by the pairwise dtype check invokes no matcher,
and on every call whatsoever the trace either contains no matcher
invocation at all or begins with all four completed entry checks
(validation-mode, key-length, dtype, categorical reconciliation).  The
cardinality check demanded by the ValidationMode is instead passed into
the single-key inner matching step `_sort_or_hash_inner` and performed
there: every single-key inner call that passes the earlier checks and
whose (reconciled) keys violate the mode fails with the validation error
while the trace records the matching-step invocation. -/
theorem c3_amended_cardinality_inside_matching_step :
    (∀ (left_df other : DataFrame) (selL selR : List Series) (args : JoinArgs),
      args.how.isCross = false → selL.length ≠ selR.length →
      (∃ msg, joinImplRes left_df other selL selR args = .err (.computeError msg))
      ∧ ∀ e ∈ joinImplTrace left_df other selL selR args, e.isMatcher = false)
    ∧ (∀ (left_df other : DataFrame) (selL selR : List Series) (args : JoinArgs)
        (p : Series × Series),
      args.how.isCross = false → selL.length = selR.length →
      findDtypeMismatch selL selR = some p →
      (∃ msg, joinImplRes left_df other selL selR args = .err (.computeError msg))
      ∧ ∀ e ∈ joinImplTrace left_df other selL selR args, e.isMatcher = false)
    ∧ (∀ (left_df other : DataFrame) (selL selR : List Series) (args : JoinArgs),
      (∃ tr2, joinImplTrace left_df other selL selR args =
        [.checkValidJoin, .checkKeyLength, .checkDType, .reconcileCategoricals] ++ tr2)
      ∨ ∀ e ∈ joinImplTrace left_df other selL selR args, e.isMatcher = false)
    ∧ (∀ (left_df other : DataFrame) (sL sR : Series) (args : JoinArgs) (m : String),
      args.how = .inner →
      dtypeEq sL.dtype sR.dtype = true →
      validationMsg args.validation (reconcilePair sL sR).1 (reconcilePair sL sR).2 =
        some m →
      joinImplRes left_df other [sL] [sR] args = .err (.computeError m)
      ∧ (Event.matcherInvoked .sortOrHashInner) ∈
          joinImplTrace left_df other [sL] [sR] args) := by
  refine ⟨?_, ?_, ?_, ?_⟩
  · intro left_df other selL selR args hcross hne
    have h := joinImpl_length_mismatch left_df other selL selR args hcross hne
    constructor
    · exact ⟨_, by unfold joinImplRes; rw [h]⟩
    · unfold joinImplTrace
      rw [h]
      exact no_matcher_in_entry_checks
  · intro left_df other selL selR args p hcross hlen hdm
    have h := joinImpl_dtype_mismatch left_df other selL selR args p hcross hlen hdm
    constructor
    · exact ⟨_, by unfold joinImplRes; rw [h]⟩
    · unfold joinImplTrace
      rw [h]
      exact no_matcher_in_three_checks
  · intro left_df other selL selR args
    cases hc : args.how.isCross with
    | true =>
      right
      have h : joinImplTrace left_df other selL selR args =
          [Event.checkValidJoin, Event.crossProduct] := by
        unfold joinImplTrace joinImpl is_valid_join
        rw [if_pos hc]
        simp [crossJoinDF]
      rw [h]
      exact no_matcher_in_cross_trace
    | false =>
      by_cases hlen : selL.length = selR.length
      · cases hdm : findDtypeMismatch selL selR with
        | some p =>
          right
          have h := joinImpl_dtype_mismatch left_df other selL selR args p hc hlen hdm
          unfold joinImplTrace
          rw [h]
          exact no_matcher_in_three_checks
        | none =>
          left
          by_cases h1 : (reconcileCats selL selR).1.length = 1
          · refine ⟨(singleKeyDispatch left_df other
                ((reconcileCats selL selR).1.headD ⟨"", .int, []⟩)
                ((reconcileCats selL selR).2.headD ⟨"", .int, []⟩) args).2, ?_⟩
            unfold joinImplTrace joinImpl is_valid_join
            simp [hc, hlen, hdm, h1]
          · refine ⟨(multiKeyDispatch left_df other
                (reconcileCats selL selR).1 (reconcileCats selL selR).2 args).2, ?_⟩
            unfold joinImplTrace joinImpl is_valid_join
            simp [hc, hlen, hdm, h1]
      · right
        have h := joinImpl_length_mismatch left_df other selL selR args hc hlen
        unfold joinImplTrace
        rw [h]
        exact no_matcher_in_entry_checks
  · intro left_df other sL sR args m hhow hdt hv
    rcases args with ⟨how, val, suf, sl, jn⟩
    simp only at hhow
    subst hhow
    simp only at hv
    have hdm : findDtypeMismatch [sL] [sR] = none := by
      simp [findDtypeMismatch, hdt]
    constructor
    · unfold joinImplRes joinImpl is_valid_join
      simp [JoinType.isCross, hdm, reconcileCats, singleKeyDispatch,
        innerJoinFromSeries, sortOrHashInner, hv]
    · unfold joinImplTrace joinImpl is_valid_join
      simp [JoinType.isCross, hdm, reconcileCats, singleKeyDispatch,
        innerJoinFromSeries, sortOrHashInner, hv]

/-- Witness for C3 (amended) at the spec's scenario. -/
theorem c3_amended_cardinality_witness :
    dtypeEq exIdL.dtype exIdR.dtype = true
    ∧ validationMsg JoinValidation.oneToOne (reconcilePair exIdL exIdR).1
        (reconcilePair exIdL exIdR).2 =
      some "join keys did not fulfill 1:1 validation, the left side is not unique"
    ∧ (joinImplRes ⟨[exIdL]⟩ ⟨[exIdR]⟩ [exIdL] [exIdR]
          ⟨.inner, .oneToOne, none, none, false⟩ =
        .err (.computeError
          "join keys did not fulfill 1:1 validation, the left side is not unique")
      ∧ (Event.matcherInvoked .sortOrHashInner) ∈
          joinImplTrace ⟨[exIdL]⟩ ⟨[exIdR]⟩ [exIdL] [exIdR]
            ⟨.inner, .oneToOne, none, none, false⟩) :=
  ⟨by decide, by decide,
    c3_amended_cardinality_inside_matching_step.2.2.2 ⟨[exIdL]⟩ ⟨[exIdR]⟩ exIdL exIdR
      ⟨.inner, .oneToOne, none, none, false⟩
      "join keys did not fulfill 1:1 validation, the left side is not unique"
      rfl (by decide) (by decide)⟩

/-- C4 counterexample: an as-of call with `left_by` set and `right_by`
unset panics with "expected by arguments on both sides" — it does not
return an `InvalidInput` error value. -/
theorem c4_counterexample_asof_by_panics :
    joinImplRes ⟨[exIdL]⟩ ⟨[exIdR]⟩ [exIdL] [exIdR]
        ⟨.asOf ⟨.backward, none, some ["g"], none⟩, .manyToMany, none, none, false⟩ =
      .panicked "expected by arguments on both sides" := by
  decide

/-- C4 (amended): for every single-key as-of join call in which exactly
one side supplies "by" keys, the dispatch arm executes
`panic!("expected by arguments on both sides")`: the call terminates
abnormally with that panic (and hence no partial output), instead of
returning an error value. -/
theorem c4_amended_one_sided_by_panics
    (left_df other : DataFrame) (nL nR : String) (vL vR : List AnyValue)
    (args : JoinArgs) (opts : AsOfOptions)
    (hhow : args.how = .asOf opts)
    (hby : opts.left_by.isSome ≠ opts.right_by.isSome) :
    joinImplRes left_df other [⟨nL, .int, vL⟩] [⟨nR, .int, vR⟩] args =
      .panicked "expected by arguments on both sides" := by
  rcases args with ⟨how, val, suf, sl, jn⟩
  simp only at hhow
  subst hhow
  rcases opts with ⟨strat, tol, lb, rb⟩
  unfold joinImplRes joinImpl is_valid_join
  cases lb <;> cases rb <;>
    simp_all [JoinType.isCross, findDtypeMismatch, dtypeEq, reconcileCats,
      reconcilePair, singleKeyDispatch]

/-- Witness for C4 (amended) at a concrete one-sided-by as-of call. -/
theorem c4_amended_one_sided_by_panics_witness :
    ((⟨.asOf ⟨.backward, none, some ["g"], none⟩, .manyToMany, none, none,
        false⟩ : JoinArgs).how = .asOf ⟨.backward, none, some ["g"], none⟩)
    ∧ ((some ["g"] : Option (List String)).isSome ≠
        (none : Option (List String)).isSome)
    ∧ joinImplRes ⟨[exIdL]⟩ ⟨[exIdR]⟩ [exIdL] [exIdR]
        ⟨.asOf ⟨.backward, none, some ["g"], none⟩, .manyToMany, none, none, false⟩ =
      .panicked "expected by arguments on both sides" :=
  ⟨rfl, by decide,
    c4_amended_one_sided_by_panics ⟨[exIdL]⟩ ⟨[exIdR]⟩ "id" "id"
      [.int 1, .int 2, .int 2, .int 3] [.int 2, .int 2, .int 4]
      ⟨.asOf ⟨.backward, none, some ["g"], none⟩, .manyToMany, none, none, false⟩
      ⟨.backward, none, some ["g"], none⟩ rfl (by decide)⟩

/-- C6: every as-of join call whose key lists both contain more than one
key is rejected with a `ComputeError` — by the multi-key as-of arm when
the earlier checks pass, by those earlier checks (also `ComputeError`)
otherwise — and no matching primitive is invoked on any of these
paths. -/
theorem c6_multi_key_asof_rejected
    (left_df other : DataFrame) (selL selR : List Series)
    (args : JoinArgs) (opts : AsOfOptions)
    (hhow : args.how = .asOf opts) (hl : 1 < selL.length) (hr : 1 < selR.length) :
    (∃ m, joinImplRes left_df other selL selR args = .err (.computeError m))
    ∧ ∀ e ∈ joinImplTrace left_df other selL selR args, e.isMatcher = false := by
  rcases args with ⟨how, val, suf, sl, jn⟩
  simp only at hhow
  subst hhow
  by_cases hlen : selL.length = selR.length
  · cases hdm : findDtypeMismatch selL selR with
    | some p =>
      have heq : joinImpl left_df other selL selR ⟨.asOf opts, val, suf, sl, jn⟩ =
          (.err (.computeError ("datatypes of join keys do not match - " ++ p.1.name
              ++ ": on left does not match " ++ p.2.name ++ ": on right")),
           [.checkValidJoin, .checkKeyLength, .checkDType]) := by
        unfold joinImpl is_valid_join
        simp [JoinType.isCross, hlen, hdm]
      constructor
      · exact ⟨_, by unfold joinImplRes; rw [heq]⟩
      · unfold joinImplTrace
        rw [heq]
        show ∀ e ∈ [Event.checkValidJoin, Event.checkKeyLength, Event.checkDType],
          e.isMatcher = false
        decide
    | none =>
      have hne1 : ¬ ((reconcileCats selL selR).1.length = 1) := by
        rw [reconcileCats_fst_length]
        omega
      have heq : joinImpl left_df other selL selR ⟨.asOf opts, val, suf, sl, jn⟩ =
          (.err (.computeError "asof join not supported for join on multiple keys"),
           [.checkValidJoin, .checkKeyLength, .checkDType, .reconcileCategoricals]) := by
        unfold joinImpl is_valid_join
        simp [JoinType.isCross, hlen, hdm, hne1, multiKeyDispatch]
      constructor
      · exact ⟨_, by unfold joinImplRes; rw [heq]⟩
      · unfold joinImplTrace
        rw [heq]
        show ∀ e ∈ [Event.checkValidJoin, Event.checkKeyLength, Event.checkDType,
          Event.reconcileCategoricals], e.isMatcher = false
        decide
  · have h := joinImpl_length_mismatch left_df other selL selR
      ⟨.asOf opts, val, suf, sl, jn⟩ rfl hlen
    constructor
    · exact ⟨_, by unfold joinImplRes; rw [h]⟩
    · unfold joinImplTrace
      rw [h]
      exact no_matcher_in_entry_checks

/-- Witness for C6 at a concrete two-key as-of call. -/
theorem c6_multi_key_asof_rejected_witness :
    ((⟨.asOf ⟨.backward, none, none, none⟩, .manyToMany, none, none,
        false⟩ : JoinArgs).how = .asOf ⟨.backward, none, none, none⟩)
    ∧ (1 < [exK1L, exK2L].length) ∧ (1 < [exK1R, exK2R].length)
    ∧ ((∃ m, joinImplRes exFrameL2 exFrameR2 [exK1L, exK2L] [exK1R, exK2R]
          ⟨.asOf ⟨.backward, none, none, none⟩, .manyToMany, none, none, false⟩ =
            .err (.computeError m))
      ∧ ∀ e ∈ joinImplTrace exFrameL2 exFrameR2 [exK1L, exK2L] [exK1R, exK2R]
          ⟨.asOf ⟨.backward, none, none, none⟩, .manyToMany, none, none, false⟩,
          e.isMatcher = false) :=
  ⟨rfl, by decide, by decide,
    c6_multi_key_asof_rejected exFrameL2 exFrameR2 [exK1L, exK2L] [exK1R, exK2R]
      ⟨.asOf ⟨.backward, none, none, none⟩, .manyToMany, none, none, false⟩
      ⟨.backward, none, none, none⟩ rfl (by decide) (by decide)⟩

theorem tuplesMatch_comm (jn : Bool) (a b : List AnyValue) :
    tuplesMatch jn a b = tuplesMatch jn b a := by
  by_cases h : a = b
  · subst h
    rfl
  · have h2 : ¬(b = a) := fun e => h e.symm
    simp [tuplesMatch, h, h2]

theorem innerMatch_mem (l r : DataFrame) (jn : Bool) (i j : Nat) :
    (i, j) ∈ innerMatch l r jn ↔
      i < l.height ∧ j < r.height ∧
        tuplesMatch jn (rowTuple l i) (rowTuple r j) = true := by
  simp only [innerMatch, List.mem_flatMap, List.mem_map, List.mem_filter,
    List.mem_range, Prod.mk.injEq]
  constructor
  · rintro ⟨a, ha, b, ⟨hb, hm⟩, rfl, rfl⟩
    exact ⟨ha, hb, hm⟩
  · rintro ⟨hi, hj, hm⟩
    exact ⟨i, hi, j, ⟨hj, hm⟩, rfl, rfl⟩

theorem outerMatch_mem (l r : DataFrame) (jn : Bool) (p : Option Nat × Option Nat) :
    p ∈ outerMatch l r jn ↔
      ((∃ i j, p = (some i, some j) ∧ i < l.height ∧ j < r.height ∧
          tuplesMatch jn (rowTuple l i) (rowTuple r j) = true)
       ∨ (∃ i, p = (some i, none) ∧ i < l.height ∧
          ((List.range r.height).filter (fun j =>
            tuplesMatch jn (rowTuple l i) (rowTuple r j))).isEmpty = true)
       ∨ (∃ j, p = (none, some j) ∧ j < r.height ∧
          ((List.range l.height).filter (fun i =>
            tuplesMatch jn (rowTuple l i) (rowTuple r j))).isEmpty = true)) := by
  simp only [outerMatch, List.mem_append, List.mem_flatMap, List.mem_map,
    List.mem_filter, List.mem_range]
  constructor
  · rintro (⟨a, ha, hmem⟩ | ⟨b, ⟨hb, hemp⟩, heq⟩)
    · by_cases he : ((List.range r.height).filter (fun j =>
          tuplesMatch jn (rowTuple l a) (rowTuple r j))).isEmpty = true
      · rw [if_pos he] at hmem
        simp only [List.mem_singleton] at hmem
        subst hmem
        exact Or.inr (Or.inl ⟨a, rfl, ha, he⟩)
      · rw [if_neg he] at hmem
        simp only [List.mem_map, List.mem_filter, List.mem_range] at hmem
        obtain ⟨b, ⟨hb, hm⟩, heq⟩ := hmem
        subst heq
        exact Or.inl ⟨a, b, rfl, ha, hb, hm⟩
    · subst heq
      exact Or.inr (Or.inr ⟨b, rfl, hb, hemp⟩)
  · rintro (⟨i, j, rfl, hi, hj, hm⟩ | ⟨i, rfl, hi, hemp⟩ | ⟨j, rfl, hj, hemp⟩)
    · refine Or.inl ⟨i, hi, ?_⟩
      have hne : ¬ ((List.range r.height).filter (fun j =>
          tuplesMatch jn (rowTuple l i) (rowTuple r j))).isEmpty = true := by
        have hjin : j ∈ (List.range r.height).filter (fun j =>
            tuplesMatch jn (rowTuple l i) (rowTuple r j)) :=
          List.mem_filter.mpr ⟨List.mem_range.mpr hj, hm⟩
        intro h0
        rw [List.isEmpty_iff] at h0
        rw [h0] at hjin
        cases hjin
      rw [if_neg hne]
      exact List.mem_map.mpr ⟨j, List.mem_filter.mpr ⟨List.mem_range.mpr hj, hm⟩, rfl⟩
    · refine Or.inl ⟨i, hi, ?_⟩
      rw [if_pos hemp]
      exact List.mem_singleton.mpr rfl
    · exact Or.inr ⟨j, ⟨hj, hemp⟩, rfl⟩

theorem innerMultiIds_mem (lf rf : DataFrame) (jn : Bool) (i j : Nat) :
    (i, j) ∈ innerMultiIds lf rf jn ↔
      i < lf.height ∧ j < rf.height ∧
        tuplesMatch jn (rowTuple lf i) (rowTuple rf j) = true := by
  unfold innerMultiIds innerJoinMultipleKeys detHashProneOrder
  by_cases h : lf.height < rf.height
  · rw [if_pos h]
    simp only [if_true]
    rw [List.mem_map]
    constructor
    · rintro ⟨q, hq, hswap⟩
      have hq2 : q = (j, i) := by
        cases q
        cases hswap
        rfl
      subst hq2
      rw [innerMatch_mem] at hq
      exact ⟨hq.2.1, hq.1, by rw [tuplesMatch_comm]; exact hq.2.2⟩
    · rintro ⟨hi, hj, hm⟩
      refine ⟨(j, i), ?_, rfl⟩
      rw [innerMatch_mem]
      exact ⟨hj, hi, by rw [tuplesMatch_comm]; exact hm⟩
  · rw [if_neg h]
    simp only [Bool.false_eq_true, if_false]
    exact innerMatch_mem lf rf jn i j

theorem outerMultiIds_mem (lf rf : DataFrame) (jn : Bool) (p : Option Nat × Option Nat) :
    p ∈ outerMultiIds lf rf jn ↔ p ∈ outerMatch lf rf jn := by
  unfold outerMultiIds outerJoinMultipleKeys detHashProneOrder
  by_cases h : lf.height < rf.height
  · rw [if_pos h]
    simp only [if_true]
    rw [List.mem_map]
    constructor
    · rintro ⟨q, hq, rfl⟩
      rw [outerMatch_mem] at hq
      rw [outerMatch_mem]
      rcases hq with ⟨a, b, rfl, ha, hb, hm⟩ | ⟨a, rfl, ha, hemp⟩ | ⟨b, rfl, hb, hemp⟩
      · exact Or.inl ⟨b, a, rfl, hb, ha, by rw [tuplesMatch_comm]; exact hm⟩
      · refine Or.inr (Or.inr ⟨a, rfl, ha, ?_⟩)
        rw [show (fun i => tuplesMatch jn (rowTuple lf i) (rowTuple rf a)) =
            (fun j => tuplesMatch jn (rowTuple rf a) (rowTuple lf j)) from
          funext fun x => tuplesMatch_comm jn (rowTuple lf x) (rowTuple rf a)]
        exact hemp
      · refine Or.inr (Or.inl ⟨b, rfl, hb, ?_⟩)
        rw [show (fun j => tuplesMatch jn (rowTuple lf b) (rowTuple rf j)) =
            (fun i => tuplesMatch jn (rowTuple rf i) (rowTuple lf b)) from
          funext fun x => tuplesMatch_comm jn (rowTuple lf b) (rowTuple rf x)]
        exact hemp
    · intro hp
      rw [outerMatch_mem] at hp
      rcases hp with ⟨i, j, rfl, hi, hj, hm⟩ | ⟨i, rfl, hi, hemp⟩ | ⟨j, rfl, hj, hemp⟩
      · refine ⟨(some j, some i), ?_, rfl⟩
        rw [outerMatch_mem]
        exact Or.inl ⟨j, i, rfl, hj, hi, by rw [tuplesMatch_comm]; exact hm⟩
      · refine ⟨(none, some i), ?_, rfl⟩
        rw [outerMatch_mem]
        refine Or.inr (Or.inr ⟨i, rfl, hi, ?_⟩)
        rw [show (fun a => tuplesMatch jn (rowTuple rf a) (rowTuple lf i)) =
            (fun j => tuplesMatch jn (rowTuple lf i) (rowTuple rf j)) from
          funext fun x => tuplesMatch_comm jn (rowTuple rf x) (rowTuple lf i)]
        exact hemp
      · refine ⟨(some j, none), ?_, rfl⟩
        rw [outerMatch_mem]
        refine Or.inr (Or.inl ⟨j, rfl, hj, ?_⟩)
        rw [show (fun b => tuplesMatch jn (rowTuple rf j) (rowTuple lf b)) =
            (fun i => tuplesMatch jn (rowTuple lf i) (rowTuple rf j)) from
          funext fun x => tuplesMatch_comm jn (rowTuple rf j) (rowTuple lf x)]
        exact hemp
  · rw [if_neg h]
    simp only [Bool.false_eq_true, if_false]

theorem take_names (df : DataFrame) (idxs : List Nat) :
    (df.take idxs).names = df.names := by
  simp [DataFrame.take, DataFrame.names, List.map_map, Function.comp]

theorem finishJoin_names (a b : DataFrame) (suf : Option String) :
    (finishJoin a b suf).names = a.names ++ b.names.map (fun n =>
      if a.names.contains n then joinSuffixName n (suf.getD "_right") else n) := by
  unfold finishJoin DataFrame.names
  simp only [List.map_append, List.map_map]
  congr 1
  apply List.map_congr_left
  intro s _
  simp only [Function.comp]
  split <;> rfl

/-- C7: the build-side choice of the multi-key Inner/Outer branches is a
pure function of the two physical key frames' row counts — the swap flag
is exactly `height(left) < height(right)`, ties break to no swap, and
the build side (second component) is never taller than the probe side —
and the output orientation is independent of the swap: the pair sequence
of the Inner branch consists exactly of the caller-oriented matching
pairs (equal to the no-swap reference matcher), the Outer branch's pair
sequence has exactly the members of the no-swap reference (matched
pairs, unmatched left as `(some i, none)`, unmatched right as
`(none, some j)`), and the assembled column ordering does not depend on
the id sequence at all, hence not on the swap. -/
theorem c7_build_probe_optimizer (lf rf : DataFrame) (jn : Bool) :
    (detHashProneOrder lf rf).2.2 = decide (lf.height < rf.height)
    ∧ (lf.height = rf.height → (detHashProneOrder lf rf).2.2 = false)
    ∧ (detHashProneOrder lf rf).2.1.height ≤ (detHashProneOrder lf rf).1.height
    ∧ (∀ i j, (i, j) ∈ innerMultiIds lf rf jn ↔
        i < lf.height ∧ j < rf.height ∧
          tuplesMatch jn (rowTuple lf i) (rowTuple rf j) = true)
    ∧ (∀ i j, (i, j) ∈ innerMultiIds lf rf jn ↔ (i, j) ∈ innerMatch lf rf jn)
    ∧ (∀ p, p ∈ outerMultiIds lf rf jn ↔ p ∈ outerMatch lf rf jn)
    ∧ (∀ (dfl dfr : DataFrame) (selR : List Series) (suf : Option String)
        (ids ids2 : List (Nat × Nat)),
        (finishJoin (dfl.take (ids.map Prod.fst))
            ((removeSelected dfr selR).take (ids.map Prod.snd)) suf).names =
        (finishJoin (dfl.take (ids2.map Prod.fst))
            ((removeSelected dfr selR).take (ids2.map Prod.snd)) suf).names) := by
  refine ⟨?_, ?_, ?_, ?_, ?_, ?_, ?_⟩
  · by_cases h : lf.height < rf.height <;> simp [detHashProneOrder, h]
  · intro he
    simp [detHashProneOrder, he]
  · by_cases h : lf.height < rf.height
    · simp only [detHashProneOrder, if_pos h]
      omega
    · simp only [detHashProneOrder, if_neg h]
      omega
  · exact innerMultiIds_mem lf rf jn
  · intro i j
    rw [innerMultiIds_mem, innerMatch_mem]
  · exact outerMultiIds_mem lf rf jn
  · intro dfl dfr selR suf ids ids2
    rw [finishJoin_names, finishJoin_names, take_names, take_names, take_names,
      take_names]

/-- Witness for C7 at the concrete two-key frames (of unequal heights,
so an internal swap occurs when the right side is smaller). -/
theorem c7_build_probe_optimizer_witness :
    ((detHashProneOrder exFrameL2 exFrameR2).2.2 =
        decide (exFrameL2.height < exFrameR2.height))
    ∧ (exFrameL2.height = exFrameR2.height →
        (detHashProneOrder exFrameL2 exFrameR2).2.2 = false)
    ∧ ((1, 0) ∈ innerMultiIds exFrameL2 exFrameR2 false ↔
        1 < exFrameL2.height ∧ 0 < exFrameR2.height ∧
          tuplesMatch false (rowTuple exFrameL2 1) (rowTuple exFrameR2 0) = true) :=
  ⟨(c7_build_probe_optimizer exFrameL2 exFrameR2 false).1,
   (c7_build_probe_optimizer exFrameL2 exFrameR2 false).2.1,
   (c7_build_probe_optimizer exFrameL2 exFrameR2 false).2.2.2.1 1 0⟩

/-- C8: a join call leaves both operand tables unchanged: the store of
the two inputs after the call equals the store before it, on success,
error and panic alike (the embedding mirrors the shared-reference
discipline of the entry points, which cannot write through their
borrows; the output is assembled by gathers into fresh columns). -/
theorem c8_join_inputs_unchanged (st : Store) (left_on right_on : List String)
    (args : JoinArgs) :
    (join st left_on right_on args).2 = st := by
  unfold join
  split
  · rfl
  · cases hl : st.left.select_series left_on with
    | error e => rfl
    | ok selL =>
      cases hr : st.right.select_series right_on with
      | error e => rfl
      | ok selR => rfl

end Polars
